import Mathlib

/-!
Shallow embedding of the quest data model of forien-quest-log
(src/modules/model/Quest.js, src/modules/entities/reward.js,
src/unnamed/part_000 = QuestTracker), with theorems checking the
natural-language specification against it.

Modelling conventions:
  * JS `undefined` / `null` / absent-vs-present distinctions are carried by
    `Option` types, or by the small `JSVal` type where the code distinguishes
    `undefined` from `null` (as in `Reward.create`, which tests `=== undefined`).
  * `x || fallback` on string-valued fields maps the empty string (falsy) to
    the fallback, mirroring JS truthiness.
  * `game.i18n.localize(key)` is modelled as the key itself (a pure lookup in
    an external table; the code only threads the resulting string through).
  * A JS exception is modelled with `Except`: `.error msg` where the JS code
    throws, `.ok v` where it returns normally.
  * Mutable objects held by the external quest index are modelled as an
    association-list store keyed by quest id; mutation of a fetched object is
    an update of its store slot, which is exact object-identity semantics as
    long as the index hands out one object per id.
-/

namespace FQL

/-- Minimal JS value type for fields where the code distinguishes `undefined`
from `null` from a string. -/
inductive JSVal
  | undef
  | null
  | str (s : String)
deriving DecidableEq

/-- JS `v || null` for optional string fields: `none` models the result `null`
(absent, `null`, and the falsy empty string all collapse to `null`). -/
def jsStrOrNull (v : Option String) : Option String :=
  match v with
  | some s => if s = "" then none else some s
  | none => none

/-- JS `v || dflt` for string fields with a string default. -/
def jsStrOr (v : Option String) (dflt : String) : String :=
  match v with
  | some s => if s = "" then dflt else s
  | none => dflt

/-- JS `data.type || null` on a `JSVal` (used by both Reward constructors). -/
def jsValOrNull (v : JSVal) : Option String :=
  match v with
  | .str s => if s = "" then none else some s
  | _ => none

/-- Raw input record for the Task constructor (`new Task(data)`), restricted
to the field types the spec and claims quantify over: `name` absent or a
string, the flags absent or booleans. -/
structure TaskData where
  name : Option String := none
  completed : Option Bool := none
  failed : Option Bool := none
  hidden : Option Bool := none
deriving DecidableEq

/-- Task record as built by the `Task` constructor in Quest.js:
`name = data.name || null`, `completed = data.completed || false`,
`failed = data.failed || false`, `hidden = data.hidden || false`. -/
structure Task where
  name : Option String
  completed : Bool
  failed : Bool
  hidden : Bool
deriving DecidableEq

/-- The `Task` constructor (Quest.js lines 404-412). -/
def Task.ofData (d : TaskData) : Task :=
  { name := jsStrOrNull d.name
    completed := d.completed.getD false
    failed := d.failed.getD false
    hidden := d.hidden.getD false }

/-- Derived `Task.state` getter (Quest.js lines 414-425). -/
def Task.state (t : Task) : String :=
  if t.completed then "check-square"
  else if t.failed then "minus-square"
  else "square"

/-- The serialized shape of a Task (`Task.toJSON`), including the derived
`state` field. -/
structure TaskJson where
  name : Option String
  completed : Bool
  failed : Bool
  hidden : Bool
  state : String
deriving DecidableEq

/-- The nested `Task.toJSON` (Quest.js lines 427-436).
`JSON.parse(JSON.stringify(x))` is the identity on the modelled value space
(strings, booleans, null), so the round-trip is elided. -/
def Task.toJSON (t : Task) : TaskJson :=
  { name := t.name
    completed := t.completed
    failed := t.failed
    hidden := t.hidden
    state := t.state }

/-- The `Task.toggle` cyclic state machine (Quest.js lines 438-453). -/
def Task.toggle (t : Task) : Task :=
  if t.completed = false ∧ t.failed = false then
    { t with completed := true }
  else if t.completed = true then
    { t with failed := true, completed := false }
  else
    { t with failed := false }

/-- The nested `Task.toggleVisible` (Quest.js lines 455-460): flips `hidden`
and returns the new value. -/
def Task.toggleVisible (t : Task) : Bool × Task :=
  (!t.hidden, { t with hidden := !t.hidden })

/-- The inner `data` mapping of a reward, restricted to the two properties the
code ever reads (`data.data.name`, `data.data.img`). `JSVal.undef` models a
property that is absent (reading it yields `undefined`), so the empty object
literal is the record with both fields `undef`. -/
structure RewardData where
  name : JSVal := .undef
  img : JSVal := .undef
deriving DecidableEq

/-- Raw input record for both Reward constructors and for `Reward.create`. -/
structure RawReward where
  type : JSVal := .undef
  data : Option RewardData := none
  hidden : Option Bool := none
deriving DecidableEq

/-- Reward record as built by the nested `Reward` constructor in Quest.js
(lines 381-386): `type = data.type || null`, `data = data.data || ` the empty
object, `hidden = data.hidden || false`. -/
structure Reward where
  type : Option String
  data : RewardData
  hidden : Bool
deriving DecidableEq

/-- The nested `Reward` constructor (Quest.js lines 381-386). -/
def Reward.ofData (d : RawReward) : Reward :=
  { type := jsValOrNull d.type
    data := d.data.getD {}
    hidden := d.hidden.getD false }

/-- The serialized shape of a Reward (`toJSON` of either class). -/
structure RewardJson where
  type : Option String
  data : RewardData
  hidden : Bool
deriving DecidableEq

/-- The nested `Reward.toJSON` (Quest.js lines 388-395); the
`JSON.parse(JSON.stringify(...))` round-trip is the identity on the modelled
value space and is elided. -/
def Reward.toJSON (r : Reward) : RewardJson :=
  { type := r.type, data := r.data, hidden := r.hidden }

/-- The nested `Reward.toggleVisible` (Quest.js lines 397-401): flips `hidden`
and returns the new value. -/
def Reward.toggleVisible (r : Reward) : Bool × Reward :=
  (!r.hidden, { r with hidden := !r.hidden })

/-- Standalone Reward entity (src/modules/entities/reward.js), kept as a
separate type with the source's private field names so that its duplicate
definitions can be compared with the nested class. -/
structure EReward where
  _type : Option String
  _data : RewardData
  _hidden : Bool
deriving DecidableEq

/-- The standalone `Reward` constructor (reward.js lines 3-8). -/
def EReward.ofData (d : RawReward) : EReward :=
  { _type := jsValOrNull d.type
    _data := d.data.getD {}
    _hidden := d.hidden.getD false }

/-- Getter `type` of the standalone Reward (reward.js lines 35-38). -/
def EReward.type (r : EReward) : Option String := r._type

/-- Getter `data` of the standalone Reward (reward.js lines 10-13). -/
def EReward.data (r : EReward) : RewardData := r._data

/-- Getter `hidden` of the standalone Reward (reward.js lines 20-23). -/
def EReward.hidden (r : EReward) : Bool := r._hidden

/-- Getter `isValid` of the standalone Reward (reward.js lines 30-33). -/
def EReward.isValid (r : EReward) : Prop := r._type ≠ none

/-- The standalone `Reward.toJSON` (reward.js lines 60-67). -/
def EReward.toJSON (r : EReward) : RewardJson :=
  { type := r._type, data := r._data, hidden := r._hidden }

/-- The standalone `async Reward.toggleVisible` (reward.js lines 69-74): flips
`hidden` and returns the new value; the Promise wrapper around the returned
boolean is elided (no suspension occurs inside the body). -/
def EReward.toggleVisible (r : EReward) : Bool × EReward :=
  (!r._hidden, { r with _hidden := !r._hidden })

/-- Static factory `Reward.create` (reward.js lines 46-58): throws a
descriptive error when `data.type === undefined`, or when
`data.data === undefined || data.data.name === undefined ||
data.data.img === undefined`; otherwise returns `new Reward(data)`. -/
def EReward.create (d : RawReward) : Except String EReward :=
  if d.type = .undef then
    .error "ForienQuestLog.Api.reward.create.type"
  else
    match d.data with
    | none => .error "ForienQuestLog.Api.reward.create.data"
    | some r =>
      if r.name = .undef ∨ r.img = .undef then
        .error "ForienQuestLog.Api.reward.create.data"
      else
        .ok (EReward.ofData d)

/-- Raw input record for the Quest constructor / `initData`. -/
structure QuestData where
  id : Option String := none
  giver : Option String := none
  name : Option String := none
  status : Option String := none
  description : Option String := none
  gmnotes : Option String := none
  image : Option String := none
  giverName : Option String := none
  giverImgPos : Option String := none
  splash : Option String := none
  splashPos : Option String := none
  parent : Option String := none
  subquests : Option (List (Option String)) := none
  tasks : Option (List TaskData) := none
  rewards : Option (List RawReward) := none
deriving DecidableEq

/-- The localization key used as the fallback quest name;
`game.i18n.localize` is modelled as the identity on the key. -/
def newQuestKey : String := "ForienQuestLog.NewQuest"

/-- Quest aggregate as initialized by the constructor plus `initData`
(Quest.js lines 13-19 and 152-170). The backing journal entry (`this.entry`)
and the raw `this.data` reference are external collaborators and are carried
separately where a claim needs them. Subquest ids are stored as whatever was
pushed (`Option String`, since `addSubquest` pushes a possibly-null id). -/
structure Quest where
  _id : Option String
  giver : Option String
  name : String
  status : String
  description : String
  gmnotes : String
  image : String
  giverName : String
  giverImgPos : String
  splash : String
  splashPos : String
  parent : Option String
  subquests : List (Option String)
  tasks : List Task
  rewards : List Reward
deriving DecidableEq

/-- The `name` setter (Quest.js lines 48-52): keeps a non-empty string, else
falls back to the localized default. `initData` assigns
`data.name || localize(newQuestKey)`, and the setter re-checks. -/
def Quest.nameOf (v : Option String) : String :=
  jsStrOr v newQuestKey

/-- `Quest.initData` (Quest.js lines 152-170) combined with the constructor's
`this._id = data.id || null` (line 15). The double assignment of
`tasks`/`rewards` in the source (first `[]`, then the mapped arrays) has the
mapped arrays as its net effect. -/
def Quest.ofData (d : QuestData) : Quest :=
  { _id := jsStrOrNull d.id
    giver := jsStrOrNull d.giver
    name := Quest.nameOf d.name
    status := jsStrOr d.status "hidden"
    description := jsStrOr d.description ""
    gmnotes := jsStrOr d.gmnotes ""
    image := jsStrOr d.image "actor"
    giverName := jsStrOr d.giverName "actor"
    giverImgPos := jsStrOr d.giverImgPos "center"
    splash := jsStrOr d.splash ""
    splashPos := jsStrOr d.splashPos "center"
    parent := jsStrOrNull d.parent
    subquests := d.subquests.getD []
    tasks := (d.tasks.getD []).map Task.ofData
    rewards := (d.rewards.getD []).map Reward.ofData }

/-- `Quest.addReward` (Quest.js lines 59-63): constructs a nested Reward and
appends it only when its `type` is non-null. -/
def Quest.addReward (q : Quest) (d : RawReward) : Quest :=
  let reward := Reward.ofData d
  if reward.type ≠ none then { q with rewards := q.rewards ++ [reward] } else q

/-- `Quest.addSubquest` (Quest.js lines 70-73): unconditional push. -/
def Quest.addSubquest (q : Quest) (questId : Option String) : Quest :=
  { q with subquests := q.subquests ++ [questId] }

/-- `Quest.removeSubquest` (Quest.js lines 221-224): filters out every
occurrence of the given id. -/
def Quest.removeSubquest (q : Quest) (questId : Option String) : Quest :=
  { q with subquests := q.subquests.filter (fun i => i ≠ questId) }

/-- `Quest.addTask` (Quest.js lines 80-84). The constructed task's `name` is
`null` when the input name was absent or empty, and the guard
`task.name.length` then throws a TypeError (reading `length` of `null`),
modelled as `Except.error`; otherwise the truthy length appends the task. -/
def Quest.addTask (q : Quest) (d : TaskData) : Except String Quest :=
  let task := Task.ofData d
  match task.name with
  | none => .error "TypeError: cannot read length of null"
  | some s =>
    .ok (if s.length ≠ 0 then { q with tasks := q.tasks ++ [task] } else q)

/-- JS `arr.splice(i, 0, a)`: insert at index `i`, clamped to the end when
`i` exceeds the length. -/
def spliceInsert (l : List α) (i : Nat) (a : α) : List α :=
  l.take i ++ a :: l.drop i

/-- JS truthiness of the `targetIdx` argument: `undefined` and `0` are falsy. -/
def jsTruthyNat (v : Option Nat) : Bool :=
  match v with
  | some n => n ≠ 0
  | none => false

/-- `Quest.sortTasks` (Quest.js lines 276-281): remove the element at `index`
(`splice(index, 1)[0]`), then reinsert at `targetIdx` when that is truthy,
else push to the end. Restricted to in-bounds `index` (out of bounds, the JS
code would push `undefined` into the array, outside the modelled value
space); the claims only quantify over in-bounds indices. -/
def Quest.sortTasks (q : Quest) (index : Nat) (targetIdx : Option Nat) : Quest :=
  match q.tasks[index]? with
  | some entry =>
    let ts := q.tasks.eraseIdx index
    if jsTruthyNat targetIdx then
      { q with tasks := spliceInsert ts (targetIdx.getD 0) entry }
    else
      { q with tasks := ts ++ [entry] }
  | none => q

/-- `Quest.sortRewards` (Quest.js lines 269-274), same shape as `sortTasks`. -/
def Quest.sortRewards (q : Quest) (index : Nat) (targetIdx : Option Nat) : Quest :=
  match q.rewards[index]? with
  | some entry =>
    let rs := q.rewards.eraseIdx index
    if jsTruthyNat targetIdx then
      { q with rewards := spliceInsert rs (targetIdx.getD 0) entry }
    else
      { q with rewards := rs ++ [entry] }
  | none => q

/-- `Quest.removeTask` (Quest.js lines 231-234). -/
def Quest.removeTask (q : Quest) (index : Nat) : Quest :=
  if q.tasks[index]?.isSome then { q with tasks := q.tasks.eraseIdx index } else q

/-- `Quest.removeReward` (Quest.js lines 211-214). -/
def Quest.removeReward (q : Quest) (index : Nat) : Quest :=
  if q.rewards[index]?.isSome then { q with rewards := q.rewards.eraseIdx index } else q

/-- `Quest.toggleTask` (Quest.js lines 326-329): `this.tasks[index]?.toggleVisible()`;
the optional chain makes an out-of-bounds index a no-op. -/
def Quest.toggleTask (q : Quest) (index : Nat) : Quest :=
  match q.tasks[index]? with
  | some t => { q with tasks := q.tasks.set index (t.toggleVisible).2 }
  | none => q

/-- `Quest.toggleReward` (Quest.js lines 316-319). -/
def Quest.toggleReward (q : Quest) (index : Nat) : Quest :=
  match q.rewards[index]? with
  | some r => { q with rewards := q.rewards.set index (r.toggleVisible).2 }
  | none => q

/-- The serialized shape of a Quest (`Quest.toJSON`, Quest.js lines 283-301). -/
structure QuestJson where
  giver : Option String
  name : String
  status : String
  description : String
  gmnotes : String
  image : String
  giverName : String
  giverImgPos : String
  splashPos : String
  splash : String
  parent : Option String
  subquests : List (Option String)
  tasks : List TaskJson
  rewards : List RewardJson
deriving DecidableEq

/-- `Quest.toJSON` (Quest.js lines 283-301); the nested Task/Reward objects
serialize through their own `toJSON` methods. -/
def Quest.toJSON (q : Quest) : QuestJson :=
  { giver := q.giver
    name := q.name
    status := q.status
    description := q.description
    gmnotes := q.gmnotes
    image := q.image
    giverName := q.giverName
    giverImgPos := q.giverImgPos
    splashPos := q.splashPos
    splash := q.splash
    parent := q.parent
    subquests := q.subquests
    tasks := q.tasks.map Task.toJSON
    rewards := q.rewards.map Reward.toJSON }

/-- Association-list lookup (used for the journal, the quest index and the
session store). -/
def alistGet : List (String × α) → String → Option α
  | [], _ => none
  | (k, v) :: rest, key => if k = key then some v else alistGet rest key

/-- Association-list update of an existing key (object mutation: the slot
must already exist; absent keys are left untouched). -/
def alistSet : List (String × α) → String → α → List (String × α)
  | [], _, _ => []
  | (k₁, v₁) :: rest, k, v =>
    if k₁ = k then (k, v) :: alistSet rest k v else (k₁, v₁) :: alistSet rest k v

/-- Backing journal entry as seen by `Quest.save`: its name, the
module-namespaced flags payload, and the result of
`canUserModify(game.user, update)` for the acting user (external permission
evaluation, modelled as a stored boolean). -/
structure JournalEntry where
  name : String
  flagsJson : QuestJson
  canModifyUpdate : Bool
deriving DecidableEq

/-- The host journal collection `game.journal`, keyed by entry id. -/
def Journal := List (String × JournalEntry)

/-- `game.journal.get(this._id)`: the lookup of the backing entry, where a
null id finds nothing. -/
def journalGet (j : Journal) (id : Option String) : Option JournalEntry :=
  match id with
  | some i => alistGet j i
  | none => none

/-- `Quest.save` (Quest.js lines 242-260): looks the entry up by `this._id`;
early-outs returning `undefined` (`none`) when the entry is missing or the
user cannot update it; otherwise updates the entry with the recomputed name
and the serialized flags payload and returns `this._id`. The result is the
returned value paired with the journal after the call. -/
def Quest.save (q : Quest) (j : Journal) : Option String × Journal :=
  match q._id with
  | none => (none, j)
  | some i =>
    match alistGet j i with
    | none => (none, j)
    | some entry =>
      if entry.canModifyUpdate = false then (none, j)
      else
        let newName := if q.name.length > 0 then q.name else newQuestKey
        (some i, alistSet j i { entry with name := newName, flagsJson := q.toJSON })

/-- The external quest index: one live Quest object per id. -/
def Store := List (String × Quest)

/-- Modelled from the spec: `Fetch.quest` lives in
src/modules/control/Fetch.js, which is not present under src/. Per the spec,
`delete()` step (a) is to "look up this quest's parent by its stored parent
identifier", and parent/subquest links are "plain identifiers resolved
through the quest index at use time"; so the lookup resolves an identifier
(possibly null, resolving to nothing) through the index. -/
def fetchQuest (st : Store) (id : Option String) : Option Quest :=
  match id with
  | some i => alistGet st i
  | none => none

/-- Writes back a mutation of a fetched quest object into its store slot. -/
def storeSet (st : Store) (id : Option String) (q : Quest) : Store :=
  match id with
  | some i => alistSet st i q
  | none => st

/-- The record returned by `Quest.delete` (Quest.js lines 131-135). -/
structure DeleteResult where
  deleteID : Option String
  savedIDs : List (Option String)
deriving DecidableEq

/-- `Quest.delete` (Quest.js lines 86-136), threading the quest index store.
`childQuest.save()` and `parentQuest.save()` persist to the journal and do
not mutate any quest record, and `this.entry.delete()` removes the backing
journal record; neither affects the quest index, so the journal is not
threaded here. Mutations of `parentQuest` and each `childQuest` go through
their store slots (`q.parent`, `childId`), which matches live-object
semantics. -/
def Quest.delete (q : Quest) (st : Store) : DeleteResult × Store :=
  let parentQuest := fetchQuest st q.parent
  let parentId : Option String :=
    match parentQuest with
    | some p => p._id
    | none => none
  let st₁ :=
    match parentQuest with
    | some p => storeSet st q.parent (p.removeSubquest q._id)
    | none => st
  let step := fun (acc : Store × List (Option String)) (childId : Option String) =>
    match fetchQuest acc.1 childId with
    | some childQuest =>
      let childQuest' := { childQuest with parent := parentId }
      let s₁ := storeSet acc.1 childId childQuest'
      let saved₁ := acc.2 ++ [childQuest'._id]
      let s₂ :=
        if parentQuest.isSome then
          match fetchQuest s₁ q.parent with
          | some p => storeSet s₁ q.parent (p.addSubquest childQuest'._id)
          | none => s₁
        else s₁
      (s₂, saved₁)
    | none => acc
  let res := q.subquests.foldl step (st₁, [])
  let savedIDs :=
    if parentQuest.isSome then res.2 ++ [parentId] else res.2
  ({ deleteID := q._id, savedIDs := savedIDs }, res.1)

/-- The enriched display data of a quest entry, restricted to the fields the
tracker's transform reads (`entry.enrich` is produced by the external quest
database). -/
structure EnrichedQuest where
  id : String
  giver : Option String
  name : String
  isHidden : Bool
  isInactive : Bool
  isPersonal : Bool
  personalActors : List String
  hasObjectives : Bool
  data_tasks : List TaskJson
  data_subquest : List String
deriving DecidableEq

/-- A quest entry held by the external quest database (`QuestDB`): the
enriched data plus the ownership test for the acting user. -/
structure QuestEntry where
  enrich : EnrichedQuest
  isOwner : Bool
deriving DecidableEq

/-- One element of the view-model emitted by `QuestTracker.prepareQuests`. -/
structure TrackerQuest where
  id : String
  canEdit : Bool
  playerEdit : Bool
  source : Option String
  name : String
  isGM : Bool
  isHidden : Bool
  isInactive : Bool
  isPersonal : Bool
  personalActors : List String
  hasObjectives : Bool
  subquests : List String
  tasks : List TaskJson
deriving DecidableEq

/-- The session-scoped key for a quest's folder collapse state
(`sessionConstants.trackerFolderState` + quest id; constants.js is external,
so the prefix is opaque here). -/
def folderStateKey (questId : String) : String :=
  "trackerFolderState." ++ questId

/-- `QuestTracker.prepareQuests` (part_000 lines 426-464). When
`showOnlyPrimary` is set, the working collection is the singleton primary
quest entry (when one exists) or empty and `QuestDB.sortCollect` is not
consulted; otherwise it is the sorted active-quest collection
(`sortCollectActive`, an external input). Each entry is then transformed to a
`TrackerQuest`; tasks/subquests show only when the stored folder state is the
string false. `game.user.isGM`, `Utils.isTrustedPlayerEdit()` and
`sessionStorage` are external inputs, passed as parameters. -/
def prepareQuests (showOnlyPrimary : Bool) (primaryQuest : Option QuestEntry)
    (sortCollectActive : List QuestEntry) (isGM isTrustedPlayerEdit : Bool)
    (session : List (String × String)) : List TrackerQuest :=
  let questEntries :=
    if showOnlyPrimary then
      match primaryQuest with
      | some p => [p]
      | none => []
    else sortCollectActive
  questEntries.map (fun entry =>
    let q := entry.enrich
    let collapsed := alistGet session (folderStateKey q.id) = some "false"
    let tasks := if collapsed then q.data_tasks else []
    let subquests := if collapsed then q.data_subquest else []
    { id := q.id
      canEdit := isGM || (entry.isOwner && isTrustedPlayerEdit)
      playerEdit := entry.isOwner
      source := q.giver
      name := q.name
      isGM := isGM
      isHidden := q.isHidden
      isInactive := q.isInactive
      isPersonal := q.isPersonal
      personalActors := q.personalActors
      hasObjectives := q.hasObjectives
      subquests := subquests
      tasks := tasks })

/-! Helper definitions for the theorems. -/

/-- The two mutating operations reachable on a Task through the public
interface after construction. -/
inductive TaskOp
  | tog
  | togVis
deriving DecidableEq

/-- Applies a sequence of `toggle` / `toggleVisible` calls to a Task. -/
def Task.applyOps (t : Task) : List TaskOp → Task
  | [] => t
  | op :: rest =>
    Task.applyOps
      (match op with
       | .tog => t.toggle
       | .togVis => (t.toggleVisible).2) rest

/-- After any `toggle`, `completed` and `failed` are not both true (the
machine leaves that combination from every starting state). -/
theorem Task.toggle_not_both (t : Task) :
    ¬((t.toggle).completed = true ∧ (t.toggle).failed = true) := by
  rcases t with ⟨n, c, f, h⟩
  cases c <;> cases f <;> simp [Task.toggle]

/-- The invariant on `completed`/`failed` is preserved by every operation
sequence. -/
theorem Task.applyOps_not_both (t : Task)
    (h : ¬(t.completed = true ∧ t.failed = true)) (ops : List TaskOp) :
    ¬((t.applyOps ops).completed = true ∧ (t.applyOps ops).failed = true) := by
  induction ops generalizing t with
  | nil => exact h
  | cons op rest ih =>
    cases op with
    | tog => exact ih t.toggle (Task.toggle_not_both t)
    | togVis => exact ih (t.toggleVisible).2 h

/-- An empty-input quest, used as a concrete fixture. -/
def emptyQuest : Quest := Quest.ofData {}

/-- Concrete fixture task records, visible and unchecked. -/
def taskA : Task := ⟨some "tA", false, false, false⟩

/-- Second fixture task. -/
def taskB : Task := ⟨some "tB", false, false, false⟩

/-- Fixture reward of type item. -/
def rewardItem : Reward := ⟨some "item", {}, false⟩

/-- Fixture reward of type xp. -/
def rewardXP : Reward := ⟨some "xp", {}, false⟩

/-- Fixture quest with two tasks and two rewards. -/
def twoQuest : Quest :=
  { emptyQuest with
    tasks := [taskA, taskB]
    rewards := [rewardItem, rewardXP] }

/-- Fixture quest with a single task. -/
def oneTaskQuest : Quest := { emptyQuest with tasks := [taskA] }

/-- Fixture raw reward record with every required field present. -/
def rawSword : RawReward :=
  { type := JSVal.str "item"
    data := some { name := JSVal.str "Sword", img := JSVal.str "sword.png" }
    hidden := none }

/-! Theorems for the claims. -/

/-- C3: a Task starting in the unchecked state `{completed := false,
failed := false}` returns to exactly that state after three successive
`toggle()` calls, via completed then failed. -/
theorem task_toggle_cycle_three (t : Task) (hc : t.completed = false)
    (hf : t.failed = false) : t.toggle.toggle.toggle = t := by
  rcases t with ⟨n, c, f, h⟩
  subst hc
  subst hf
  simp [Task.toggle]

/-- Witness for C3 at a concrete unchecked task. -/
theorem task_toggle_cycle_three_witness :
    (⟨some "find", false, false, false⟩ : Task).completed = false ∧
    (⟨some "find", false, false, false⟩ : Task).failed = false ∧
    (⟨some "find", false, false, false⟩ : Task).toggle.toggle.toggle
      = (⟨some "find", false, false, false⟩ : Task) :=
  ⟨rfl, rfl, task_toggle_cycle_three ⟨some "find", false, false, false⟩ rfl rfl⟩

/-- C4 counterexample: the Task constructor accepts a raw record with both
flags set, producing a Task with `completed` and `failed` both true, so the
invariant does not hold for every Task reachable through construction from
an arbitrary raw data record. -/
theorem task_both_flags_cex :
    (Task.ofData { completed := some true, failed := some true }).completed = true ∧
    (Task.ofData { completed := some true, failed := some true }).failed = true := by
  constructor <;> rfl

/-- C4 (amended): for every Task constructed from a raw record that does not
set both `completed` and `failed`, the fields are never both true after any
sequence of `toggle()` and `toggleVisible()` calls. -/
theorem task_invariant_preserved (d : TaskData)
    (h : ¬(d.completed = some true ∧ d.failed = some true)) (ops : List TaskOp) :
    ¬(((Task.ofData d).applyOps ops).completed = true ∧
      ((Task.ofData d).applyOps ops).failed = true) := by
  apply Task.applyOps_not_both
  rcases d with ⟨n, c, f, hid⟩
  rcases c with _ | c
  · simp [Task.ofData]
  · rcases f with _ | f
    · simp [Task.ofData]
    · cases c <;> cases f <;> simp_all [Task.ofData]

/-- Witness for C4 at the record setting only `completed`, under toggles. -/
theorem task_invariant_preserved_witness :
    ¬(({ completed := some true } : TaskData).completed = some true ∧
      ({ completed := some true } : TaskData).failed = some true) ∧
    ¬(((Task.ofData { completed := some true }).applyOps
        [TaskOp.tog, TaskOp.togVis, TaskOp.tog]).completed = true ∧
      ((Task.ofData { completed := some true }).applyOps
        [TaskOp.tog, TaskOp.togVis, TaskOp.tog]).failed = true) :=
  ⟨by decide,
   task_invariant_preserved { completed := some true } (by decide)
     [TaskOp.tog, TaskOp.togVis, TaskOp.tog]⟩

/-- C1 counterexample: `addTask` on a record with an empty-string name does
not complete without error — the constructed task's name is `null` and the
guard reads `length` of `null`, throwing a TypeError (modelled as
`Except.error`); the claim's "raises no error" fails. -/
theorem addTask_empty_name_raises :
    emptyQuest.addTask { name := some "" }
      = Except.error "TypeError: cannot read length of null" := by
  rfl

/-- C1 (amended): for a record whose name is absent or the empty string,
`addTask` raises a TypeError (and thus leaves the task sequence unchanged,
the error propagating before any append); for a record with a non-empty
string name it appends exactly one Task. -/
theorem addTask_spec (q : Quest) (d : TaskData) :
    (d.name = none ∨ d.name = some "" →
      q.addTask d = Except.error "TypeError: cannot read length of null") ∧
    (∀ s, d.name = some s → s ≠ "" →
      q.addTask d = Except.ok { q with tasks := q.tasks ++ [Task.ofData d] }) := by
  constructor
  · rintro (hn | hn) <;>
      simp [Quest.addTask, Task.ofData, jsStrOrNull, hn]
  · rintro s hn hs
    have hlen : s.length ≠ 0 := by
      intro h0
      apply hs
      have hd : s.data = [] := List.length_eq_zero.mp h0
      cases s
      simp_all
    simp [Quest.addTask, Task.ofData, jsStrOrNull, hn, hs, hlen]

/-- Witness for C1 at concrete records: an absent name raises, a non-empty
name appends one task. -/
theorem addTask_spec_witness :
    emptyQuest.addTask { name := none }
      = Except.error "TypeError: cannot read length of null" ∧
    emptyQuest.addTask { name := some "Find the amulet" }
      = Except.ok { emptyQuest with
          tasks := emptyQuest.tasks ++ [Task.ofData { name := some "Find the amulet" }] } :=
  ⟨(addTask_spec emptyQuest { name := none }).1 (Or.inl rfl),
   (addTask_spec emptyQuest { name := some "Find the amulet" }).2
     "Find the amulet" rfl (by decide)⟩

/-- C9: the standalone Reward entity and the Reward class nested inside
Quest.js are observably equivalent up to the async wrapper: both
constructors produce the same `(type, data, hidden)` values for every input
record, both `toggleVisible` definitions negate `hidden` and return the new
value, and both `toJSON` definitions produce the same payload. (The nested
class's `JSON.parse(JSON.stringify(...))` round-trip is the identity on the
modelled value space; the standalone `toggleVisible` is `async`, its Promise
wrapper elided.) -/
theorem reward_duplicate_equiv :
    (∀ d : RawReward,
      (Reward.ofData d).type = (EReward.ofData d).type ∧
      (Reward.ofData d).data = (EReward.ofData d).data ∧
      (Reward.ofData d).hidden = (EReward.ofData d).hidden) ∧
    (∀ r : Reward,
      (r.toggleVisible).1 = !r.hidden ∧ (r.toggleVisible).2.hidden = !r.hidden) ∧
    (∀ r : EReward,
      (r.toggleVisible).1 = !r.hidden ∧ (r.toggleVisible).2.hidden = !r.hidden) ∧
    (∀ d : RawReward, (Reward.ofData d).toJSON = (EReward.ofData d).toJSON) :=
  ⟨fun _ => ⟨rfl, rfl, rfl⟩,
   fun _ => ⟨rfl, rfl⟩,
   fun _ => ⟨rfl, rfl⟩,
   fun _ => rfl⟩

/-- C10: `toggleTask(index)` / `toggleReward(index)` are no-ops raising no
error when no element exists at the index (the optional chain short-circuits
on `undefined`), and when an element exists, only that element's `hidden`
flag is flipped — every other field, element and quest attribute is
unchanged. -/
theorem quest_toggle_index_spec (q : Quest) (index : Nat) :
    (q.tasks[index]? = none → q.toggleTask index = q) ∧
    (∀ t, q.tasks[index]? = some t →
      q.toggleTask index
        = { q with tasks := q.tasks.set index { t with hidden := !t.hidden } }) ∧
    (q.rewards[index]? = none → q.toggleReward index = q) ∧
    (∀ r, q.rewards[index]? = some r →
      q.toggleReward index
        = { q with rewards := q.rewards.set index { r with hidden := !r.hidden } }) := by
  refine ⟨fun h => ?_, fun t ht => ?_, fun h => ?_, fun r hr => ?_⟩
  · simp [Quest.toggleTask, h]
  · simp [Quest.toggleTask, ht, Task.toggleVisible]
  · simp [Quest.toggleReward, h]
  · simp [Quest.toggleReward, hr, Reward.toggleVisible]

/-- Witness for C10: a quest with one task; index 5 is a no-op on tasks, and
index 0 flips only the hidden flag. -/
theorem quest_toggle_index_spec_witness :
    (oneTaskQuest.tasks[5]? = none ∧ oneTaskQuest.toggleTask 5 = oneTaskQuest) ∧
    (oneTaskQuest.tasks[0]? = some taskA ∧
     oneTaskQuest.toggleTask 0
       = { oneTaskQuest with tasks := oneTaskQuest.tasks.set 0 { taskA with hidden := !taskA.hidden } }) :=
  ⟨⟨by decide, (quest_toggle_index_spec oneTaskQuest 5).1 (by decide)⟩,
   ⟨by decide, (quest_toggle_index_spec oneTaskQuest 0).2.1 taskA (by decide)⟩⟩

/-- C5: with an element at `index`, `sortTasks` (resp. `sortRewards`) removes
it and reinserts it at `targetIdx` when `targetIdx` is truthy, else appends
it to the end; in particular `sortTasks(0, 0)` moves the first task to the
end of the sequence (index `0` is falsy). -/
theorem quest_sort_spec (q : Quest) (index : Nat) (targetIdx : Option Nat) :
    (∀ e, q.tasks[index]? = some e →
      (jsTruthyNat targetIdx = true →
        (q.sortTasks index targetIdx).tasks
          = spliceInsert (q.tasks.eraseIdx index) (targetIdx.getD 0) e) ∧
      (jsTruthyNat targetIdx = false →
        (q.sortTasks index targetIdx).tasks = q.tasks.eraseIdx index ++ [e])) ∧
    (∀ e, q.rewards[index]? = some e →
      (jsTruthyNat targetIdx = true →
        (q.sortRewards index targetIdx).rewards
          = spliceInsert (q.rewards.eraseIdx index) (targetIdx.getD 0) e) ∧
      (jsTruthyNat targetIdx = false →
        (q.sortRewards index targetIdx).rewards = q.rewards.eraseIdx index ++ [e])) ∧
    (∀ e rest, q.tasks = e :: rest → (q.sortTasks 0 (some 0)).tasks = rest ++ [e]) := by
  refine ⟨fun e he => ⟨fun ht => ?_, fun ht => ?_⟩,
          fun e he => ⟨fun ht => ?_, fun ht => ?_⟩,
          fun e rest hq => ?_⟩
  · simp [Quest.sortTasks, he, ht]
  · simp [Quest.sortTasks, he, ht]
  · simp [Quest.sortRewards, he, ht]
  · simp [Quest.sortRewards, he, ht]
  · simp [Quest.sortTasks, hq, jsTruthyNat]

/-- Witness for C5: on a quest with tasks `[taskA, taskB]`, `sortTasks(0, 0)`
appends the first task to the end; on its rewards, a truthy target of 1
reinserts the removed head at index 1. -/
theorem quest_sort_spec_witness :
    twoQuest.tasks = taskA :: [taskB] ∧
    (twoQuest.sortTasks 0 (some 0)).tasks = [taskB] ++ [taskA] ∧
    (twoQuest.sortRewards 0 (some 1)).rewards
      = spliceInsert (twoQuest.rewards.eraseIdx 0) 1 rewardItem :=
  ⟨rfl,
   (quest_sort_spec twoQuest 0 (some 0)).2.2 taskA [taskB] rfl,
   ((quest_sort_spec twoQuest 0 (some 1)).2.1 rewardItem (by decide)).1 (by decide)⟩

/-- C6: `Reward.create(data)` throws a descriptive error exactly when
`data.type` is absent (`undefined`) or when `data.data`, `data.data.name` or
`data.data.img` is absent, and otherwise returns the Reward the plain
constructor builds from `data`; in particular `create` of a record with
`type` but no `data` field throws. The plain constructor is a total
function of the input record, so it never throws. -/
theorem reward_create_spec (d : RawReward) :
    ((∃ msg, EReward.create d = Except.error msg) ↔
      (d.type = JSVal.undef ∨ d.data = none ∨
        ∃ r, d.data = some r ∧ (r.name = JSVal.undef ∨ r.img = JSVal.undef))) ∧
    (d.type ≠ JSVal.undef → d.data ≠ none →
      (∀ r, d.data = some r → r.name ≠ JSVal.undef ∧ r.img ≠ JSVal.undef) →
      EReward.create d = Except.ok (EReward.ofData d)) ∧
    EReward.create { type := JSVal.str "item" }
      = Except.error "ForienQuestLog.Api.reward.create.data" := by
  refine ⟨⟨?_, ?_⟩, ?_, rfl⟩
  · rintro ⟨msg, hmsg⟩
    by_cases h1 : d.type = JSVal.undef
    · exact Or.inl h1
    · rcases hd : d.data with _ | r
      · exact Or.inr (Or.inl rfl)
      · by_cases h2 : r.name = JSVal.undef ∨ r.img = JSVal.undef
        · exact Or.inr (Or.inr ⟨r, rfl, h2⟩)
        · exfalso
          simp [EReward.create, h1, hd, h2] at hmsg
  · intro h
    rcases h with h1 | h2 | ⟨r, hd, hr⟩
    · exact ⟨"ForienQuestLog.Api.reward.create.type", by simp [EReward.create, h1]⟩
    · by_cases h1 : d.type = JSVal.undef
      · exact ⟨"ForienQuestLog.Api.reward.create.type", by simp [EReward.create, h1]⟩
      · exact ⟨"ForienQuestLog.Api.reward.create.data", by simp [EReward.create, h1, h2]⟩
    · by_cases h1 : d.type = JSVal.undef
      · exact ⟨"ForienQuestLog.Api.reward.create.type", by simp [EReward.create, h1]⟩
      · refine ⟨"ForienQuestLog.Api.reward.create.data", ?_⟩
        rcases hr with h | h <;> simp [EReward.create, h1, hd, h]
  · intro h1 h2 h3
    rcases hd : d.data with _ | r
    · exact absurd hd h2
    · have hids := h3 r hd
      simp [EReward.create, h1, hd, hids.1, hids.2]

/-- Witness for C6: a fully specified record passes `create` and yields the
same Reward the plain constructor builds. -/
theorem reward_create_spec_witness :
    EReward.create rawSword = Except.ok (EReward.ofData rawSword) :=
  (reward_create_spec rawSword).2.1 (by decide) (by decide)
    (fun r h => by
      simp only [rawSword] at h
      cases h
      exact ⟨by decide, by decide⟩)

/-- C7: `save()` returns `undefined` and performs no journal update when the
backing entry is missing or the user lacks update permission, raising no
error; otherwise it updates the entry (recomputed name plus serialized
flags) and returns the quest's identifier. -/
theorem quest_save_spec (q : Quest) (j : Journal) :
    (journalGet j q._id = none → q.save j = (none, j)) ∧
    (∀ e, journalGet j q._id = some e → e.canModifyUpdate = false →
      q.save j = (none, j)) ∧
    (∀ i e, q._id = some i → alistGet j i = some e → e.canModifyUpdate = true →
      q.save j = (some i, alistSet j i { e with
        name := if q.name.length > 0 then q.name else newQuestKey,
        flagsJson := q.toJSON })) := by
  refine ⟨fun h => ?_, fun e he hperm => ?_, fun i e hi he hperm => ?_⟩
  · rcases hid : q._id with _ | i
    · simp [Quest.save, hid]
    · rw [hid] at h
      simp only [journalGet] at h
      simp [Quest.save, hid, h]
  · rcases hid : q._id with _ | i
    · rw [hid] at he
      simp [journalGet] at he
    · rw [hid] at he
      simp only [journalGet] at he
      simp [Quest.save, hid, he, hperm]
  · simp [Quest.save, hi, he, hperm]

/-- Fixture quest whose id matches the fixture journal. -/
def questOne : Quest := { emptyQuest with _id := some "q1" }

/-- Fixture quest whose id is absent from the fixture journal. -/
def questMissing : Quest := { emptyQuest with _id := some "missing" }

/-- Fixture journal entry with update permission. -/
def entryOne : JournalEntry := ⟨"old", emptyQuest.toJSON, true⟩

/-- Fixture journal containing only `entryOne` under the key q1. -/
def journalOne : Journal := [("q1", entryOne)]

/-- The entry `entryOne` after a save of `questOne`. -/
def savedEntryOne : JournalEntry :=
  { entryOne with
    name := if questOne.name.length > 0 then questOne.name else newQuestKey
    flagsJson := questOne.toJSON }

/-- Witness for C7: a quest whose entry exists with permission is saved and
returns its id; a quest with no backing entry is silently skipped. -/
theorem quest_save_spec_witness :
    questOne.save journalOne = (some "q1", alistSet journalOne "q1" savedEntryOne) ∧
    questMissing.save journalOne = (none, journalOne) :=
  ⟨(quest_save_spec questOne journalOne).2.2 "q1" entryOne rfl rfl rfl,
   (quest_save_spec questMissing journalOne).1 rfl⟩

/-- C8: in show-only-primary mode, `prepareQuests(true, primaryQuest)`
returns exactly one entry when a primary quest entry is configured and zero
entries when none is, and the sorted active-quest collection is never
consulted (the result is the same for any value of that collection). -/
theorem prepareQuests_primary_spec (p : Option QuestEntry) (act act' : List QuestEntry)
    (g t : Bool) (s : List (String × String)) :
    (p.isSome = true → (prepareQuests true p act g t s).length = 1) ∧
    (p = none → (prepareQuests true p act g t s).length = 0) ∧
    prepareQuests true p act g t s = prepareQuests true p act' g t s := by
  rcases p with _ | e
  · exact ⟨fun h => by simp at h, fun _ => by simp [prepareQuests], by simp [prepareQuests]⟩
  · exact ⟨fun _ => by simp [prepareQuests], fun h => by simp at h, by simp [prepareQuests]⟩

/-- Fixture primary quest entry for the tracker. -/
def trackerEntryOne : QuestEntry :=
  ⟨⟨"q1", none, "Quest", false, false, false, [], true, [], []⟩, true⟩

/-- Fixture non-primary active quest entry for the tracker. -/
def trackerEntryTwo : QuestEntry :=
  ⟨⟨"q2", none, "Other", false, false, false, [], true, [], []⟩, false⟩

/-- Witness for C8 at a concrete primary entry and a nonempty active
collection. -/
theorem prepareQuests_primary_spec_witness :
    (some trackerEntryOne).isSome = true ∧
    (prepareQuests true (some trackerEntryOne) [trackerEntryTwo] true false []).length = 1 :=
  ⟨rfl,
   (prepareQuests_primary_spec (some trackerEntryOne) [trackerEntryTwo] []
      true false []).1 rfl⟩

/-- Updating an existing key makes the lookup return the new value. -/
theorem alistGet_alistSet_self {α : Type} (l : List (String × α)) (k : String) (v : α)
    (h : (alistGet l k).isSome = true) : alistGet (alistSet l k v) k = some v := by
  induction l with
  | nil => simp [alistGet] at h
  | cons kv rest ih =>
    rcases kv with ⟨k₁, v₁⟩
    by_cases hk : k₁ = k
    · subst hk
      simp [alistGet, alistSet]
    · simp only [alistGet, alistSet, if_neg hk] at h ⊢
      exact ih h

/-- Updating one key leaves lookups of any other key unchanged. -/
theorem alistGet_alistSet_ne {α : Type} (l : List (String × α)) (k k' : String) (v : α)
    (h : k' ≠ k) : alistGet (alistSet l k v) k' = alistGet l k' := by
  induction l with
  | nil => simp [alistGet, alistSet]
  | cons kv rest ih =>
    rcases kv with ⟨k₁, v₁⟩
    by_cases hk : k₁ = k
    · subst hk
      simp only [alistSet, if_pos rfl, alistGet, if_neg (Ne.symm h), if_neg h]
      exact ih
    · simp only [alistSet, if_neg hk, alistGet]
      by_cases hk' : k₁ = k'
      · simp [hk']
      · simp only [if_neg hk']
        exact ih

/-- C2: for quest A with parent resolving to P and subquests [B, C] both
resolvable, after `A.delete()`: P's subquest list contains B's and C's ids
but not A's id; B.parent and C.parent equal P's id; the returned record has
deleteID = A's id and savedIDs = [B's id, C's id, P's id] in that order.
The four quests are distinct (distinct identifiers). -/
theorem quest_delete_reparent
    (st : Store) (A P B C : Quest) (a p b c : String)
    (hAid : A._id = some a) (hApar : A.parent = some p)
    (hAsub : A.subquests = [some b, some c])
    (hP : alistGet st p = some P) (hPid : P._id = some p)
    (hB : alistGet st b = some B) (hBid : B._id = some b)
    (hC : alistGet st c = some C) (hCid : C._id = some c)
    (hbp : b ≠ p) (hcp : c ≠ p) (hbc : b ≠ c) (hab : a ≠ b) (hac : a ≠ c) :
    (A.delete st).1.deleteID = some a ∧
    (A.delete st).1.savedIDs = [some b, some c, some p] ∧
    (∃ P', alistGet (A.delete st).2 p = some P' ∧
      some b ∈ P'.subquests ∧ some c ∈ P'.subquests ∧ some a ∉ P'.subquests) ∧
    (∃ B', alistGet (A.delete st).2 b = some B' ∧ B'.parent = some p) ∧
    (∃ C', alistGet (A.delete st).2 c = some C' ∧ C'.parent = some p) := by
  have e1 : alistGet (alistSet st p (P.removeSubquest (some a))) p
      = some (P.removeSubquest (some a)) :=
    alistGet_alistSet_self st p _ (by rw [hP]; rfl)
  have g1 : alistGet (alistSet st p (P.removeSubquest (some a))) b = some B := by
    rw [alistGet_alistSet_ne st p b _ hbp, hB]
  have g2 : alistGet (alistSet (alistSet st p (P.removeSubquest (some a))) b
      { B with _id := some b, parent := some p }) p = some (P.removeSubquest (some a)) := by
    rw [alistGet_alistSet_ne _ b p _ (Ne.symm hbp)]
    exact e1
  have g3 : alistGet (alistSet (alistSet (alistSet st p (P.removeSubquest (some a))) b
      { B with _id := some b, parent := some p }) p
      ((P.removeSubquest (some a)).addSubquest (some b))) c = some C := by
    rw [alistGet_alistSet_ne _ p c _ hcp, alistGet_alistSet_ne _ b c _ (Ne.symm hbc),
      alistGet_alistSet_ne st p c _ hcp, hC]
  have g4 : alistGet (alistSet (alistSet (alistSet (alistSet st p
      (P.removeSubquest (some a))) b { B with _id := some b, parent := some p }) p
      ((P.removeSubquest (some a)).addSubquest (some b))) c
      { C with _id := some c, parent := some p }) p
      = some ((P.removeSubquest (some a)).addSubquest (some b)) := by
    rw [alistGet_alistSet_ne _ c p _ (Ne.symm hcp)]
    exact alistGet_alistSet_self _ p _ (by rw [g2]; rfl)
  have hD : A.delete st =
      (⟨some a, [some b, some c, some p]⟩,
        alistSet (alistSet (alistSet (alistSet (alistSet st p
          (P.removeSubquest (some a))) b { B with _id := some b, parent := some p }) p
          ((P.removeSubquest (some a)).addSubquest (some b))) c
          { C with _id := some c, parent := some p }) p
          (((P.removeSubquest (some a)).addSubquest (some b)).addSubquest (some c))) := by
    simp only [Quest.delete, fetchQuest, storeSet, hApar, hAid, hAsub, hP, hPid, hBid, hCid,
      g1, g2, g3, g4, Option.isSome, if_true, List.foldl, List.nil_append, List.cons_append]
  have e5 : alistGet (A.delete st).2 p
      = some (((P.removeSubquest (some a)).addSubquest (some b)).addSubquest (some c)) := by
    rw [hD]
    exact alistGet_alistSet_self _ p _ (by rw [g4]; rfl)
  have f6 : alistGet (A.delete st).2 b = some { B with _id := some b, parent := some p } := by
    rw [hD]
    show alistGet (alistSet _ p _) b = _
    rw [alistGet_alistSet_ne _ p b _ hbp, alistGet_alistSet_ne _ c b _ hbc,
      alistGet_alistSet_ne _ p b _ hbp]
    exact alistGet_alistSet_self _ b _ (by rw [g1]; rfl)
  have h3 : alistGet (A.delete st).2 c = some { C with _id := some c, parent := some p } := by
    rw [hD]
    show alistGet (alistSet _ p _) c = _
    rw [alistGet_alistSet_ne _ p c _ hcp]
    exact alistGet_alistSet_self _ c _ (by rw [g3]; rfl)
  refine ⟨by rw [hD], by rw [hD],
    ⟨((P.removeSubquest (some a)).addSubquest (some b)).addSubquest (some c), e5, ?_, ?_, ?_⟩,
    ⟨{ B with _id := some b, parent := some p }, f6, rfl⟩,
    ⟨{ C with _id := some c, parent := some p }, h3, rfl⟩⟩
  · simp [Quest.addSubquest, Quest.removeSubquest]
  · simp [Quest.addSubquest, Quest.removeSubquest]
  · simp [Quest.addSubquest, Quest.removeSubquest, List.mem_filter, hab, hac]

/-- Fixture quest A with parent p and subquests [b, c]. -/
def delQuestA : Quest :=
  { emptyQuest with _id := some "a", parent := some "p", subquests := [some "b", some "c"] }

/-- Fixture parent quest P holding a as a subquest. -/
def delQuestP : Quest := { emptyQuest with _id := some "p", subquests := [some "a"] }

/-- Fixture child quest B. -/
def delQuestB : Quest := { emptyQuest with _id := some "b", parent := some "a" }

/-- Fixture child quest C. -/
def delQuestC : Quest := { emptyQuest with _id := some "c", parent := some "a" }

/-- Fixture quest index for the delete witness. -/
def delStore : Store :=
  [("p", delQuestP), ("b", delQuestB), ("c", delQuestC), ("a", delQuestA)]

/-- Witness for C2 on the concrete four-quest store. -/
theorem quest_delete_reparent_witness :
    (delQuestA.delete delStore).1.deleteID = some "a" ∧
    (delQuestA.delete delStore).1.savedIDs = [some "b", some "c", some "p"] ∧
    (∃ P', alistGet (delQuestA.delete delStore).2 "p" = some P' ∧
      some "b" ∈ P'.subquests ∧ some "c" ∈ P'.subquests ∧ some "a" ∉ P'.subquests) ∧
    (∃ B', alistGet (delQuestA.delete delStore).2 "b" = some B' ∧ B'.parent = some "p") ∧
    (∃ C', alistGet (delQuestA.delete delStore).2 "c" = some C' ∧ C'.parent = some "p") :=
  quest_delete_reparent delStore delQuestA delQuestP delQuestB delQuestC "a" "p" "b" "c"
    rfl rfl rfl (by decide) rfl (by decide) rfl (by decide) rfl
    (by decide) (by decide) (by decide) (by decide) (by decide)

end FQL
